import Mathlib

/-!
Verification development for the Mobi2Tech Studio front end.

The definitions below are a shallow embedding of the repository's
logic-bearing code: the remote image service client
(`services/geminiService.ts`, given here as `src/unnamed/part_000`),
the file/canvas utilities (`utils/fileUtils.ts`, second half of
`src/unnamed/part_000`), the `ProductStudio` view's handlers
(`src/components/ProductStudio.tsx`) and the `MultiImageDropzone`
file-intake logic (`src/unnamed/part_001`).

Modelling conventions:
  - JavaScript thrown values are modelled by `Thrown`: an `Error` object
    carries its message string; any other thrown value is `nonError`.
  - A fallible asynchronous step is modelled as an `Except Thrown`
    value supplied as an argument (the outcome of the awaited step),
    so an operation becomes a function from the outcomes of its awaited
    steps to its own outcome.
  - Machine strings are Lean `String`s; byte values are `Nat`s with
    explicit `< 256` bounds where they matter.
-/

/-- Value thrown by JavaScript code: an `Error` object carrying a message,
or any non-`Error` value (the `e instanceof Error` test distinguishes them). -/
inductive Thrown where
  | error (msg : String)
  | nonError
deriving DecidableEq, Repr

/-- Inline image payload of a response part (`inlineData` field of the
GenAI SDK part type): base64 data plus a mime type. -/
structure InlineData where
  data : String
  mimeType : String
deriving DecidableEq, Repr

/-- Response part as probed by the source (`'inlineData' in firstPart &&
firstPart.inlineData`): a part optionally carries text and optionally
carries inline image data. -/
structure ResponsePart where
  text : Option String := none
  inlineData : Option InlineData := none
deriving DecidableEq, Repr

/-- Content of one candidate: an ordered list of parts. -/
structure ResponseContent where
  parts : List ResponsePart
deriving DecidableEq, Repr

/-- One candidate of a generateContent response; `content` is optional in
the SDK (the source probes it with `?.`). -/
structure ResponseCandidate where
  content : Option ResponseContent
deriving DecidableEq, Repr

/-- Envelope of a generateContent response. An absent `candidates` field is
modelled as the empty list: the source only ever asks for
`candidates?.[0]`, which is undefined in both cases. -/
structure GenerateContentResponse where
  candidates : List ResponseCandidate
deriving DecidableEq, Repr

/-- Image-extraction step shared verbatim by the five image-producing
operations (part_000 lines 73-77, 96-100, 228-232, 284-288, 362-366):
`const firstPart = response.candidates?.[0]?.content?.parts[0]` followed by
`if (firstPart && 'inlineData' in firstPart && firstPart.inlineData) return
firstPart.inlineData.data; throw new Error(noImageMsg)`. Only the head part
of the head candidate is inspected. -/
def extractFirstPartImage (noImageMsg : String) (response : GenerateContentResponse) :
    Except String String :=
  match response.candidates.head? with
  | none => Except.error noImageMsg
  | some cand =>
    match cand.content with
    | none => Except.error noImageMsg
    | some content =>
      match content.parts.head? with
      | none => Except.error noImageMsg
      | some p =>
        match p.inlineData with
        | some d => Except.ok d.data
        | none => Except.error noImageMsg

/-- Parts of the first candidate of a response (empty when the response has
no candidate or the candidate has no content). Used to state what the spec
asserts about scanning. -/
def firstCandidateParts (response : GenerateContentResponse) : List ResponsePart :=
  match response.candidates.head? with
  | none => []
  | some cand =>
    match cand.content with
    | none => []
    | some content => content.parts

/-- Spec-side reading of the extraction (stated from the spec's words, to be
compared with `extractFirstPartImage`): the first inline-image part of the
first candidate, found by scanning all of its parts. -/
def firstInlineImageOfFirstCandidate (response : GenerateContentResponse) :
    Option InlineData :=
  (List.find? (fun p => p.inlineData.isSome) (firstCandidateParts response)).bind
    (fun p => p.inlineData)

/-- Spec-side predicate (stated from the spec's words): the response contains
an inline-image part in some candidate. -/
def responseHasInlineImage (response : GenerateContentResponse) : Bool :=
  response.candidates.any (fun c =>
    match c.content with
    | none => false
    | some content => content.parts.any (fun p => p.inlineData.isSome))

/-- No-image error message of `compositeProductImage`, `editImageWithPrompt`
and `generateImage` (part_000 lines 77, 100, 138). -/
def noImageMsgGeneric : String := "No image data received from API."

/-- No-image error message of `copyProductStyle` (part_000 line 232). -/
def noImageMsgCopyStyle : String :=
  "The AI service did not return an image. This might be due to a content safety policy. Please try a different image or prompt."

/-- No-image error message of `generateStyledBackground` (part_000 line 288). -/
def noImageMsgStyledBackground : String :=
  "The AI service did not return a background image. This might be due to a content safety policy. Please try a different image or prompt."

/-- No-image error message of `compositeProductWithBackground` (part_000 line 366). -/
def noImageMsgCompositeWithBackground : String :=
  "The AI service did not return the final composite image. This could be due to a content safety policy."

/-- Awaited pipeline of an image operation after its prompt is built: the
outcome of encoding plus `ai.models.generateContent` is given as an
`Except`; on a response, the shared extraction step runs. A throw from the
pipeline passes through untouched here (any catch is applied by the caller). -/
def extractStep (noImageMsg : String)
    (pipeline : Except Thrown GenerateContentResponse) : Except Thrown String :=
  match pipeline with
  | Except.error e => Except.error e
  | Except.ok resp => (extractFirstPartImage noImageMsg resp).mapError Thrown.error

/-- Catch clause shared in shape by `copyProductStyle`,
`generateStyledBackground`, `compositeProductWithBackground` and
`generateProductDetails` (part_000 lines 233-239, 289-295, 367-373,
419-425): an `Error` is re-thrown with the operation's message prefixed to
the original message; a non-`Error` throw becomes the operation's generic
unknown-error message. -/
def catchWrap {α : Type} (wrapPre : String) (unknownMsg : String)
    (r : Except Thrown α) : Except Thrown α :=
  match r with
  | Except.ok v => Except.ok v
  | Except.error (Thrown.error msg) => Except.error (Thrown.error (wrapPre ++ msg))
  | Except.error Thrown.nonError => Except.error (Thrown.error unknownMsg)

/-- Result of `compositeProductImage` (part_000 lines 39-78) as a function of
its awaited pipeline: there is no try/catch in this operation, so a thrown
failure propagates unchanged; on a response the shared extraction runs with
the generic no-image message. -/
def compositeProductImageResult
    (pipeline : Except Thrown GenerateContentResponse) : Except Thrown String :=
  extractStep noImageMsgGeneric pipeline

/-- Result of `editImageWithPrompt` (part_000 lines 80-101) as a function of
its awaited pipeline: no try/catch, same extraction as the composite. -/
def editImageWithPromptResult
    (pipeline : Except Thrown GenerateContentResponse) : Except Thrown String :=
  extractStep noImageMsgGeneric pipeline

/-- Image payload of a generateImages entry. -/
structure GeneratedImageData where
  imageBytes : String
deriving DecidableEq, Repr

/-- Generated image entry of a generateImages response
(`generatedImages[i].image.imageBytes`). -/
structure GeneratedImage where
  image : GeneratedImageData
deriving DecidableEq, Repr

/-- Envelope of a generateImages response; an absent `generatedImages` field
is modelled as the empty list (the source tests `response.generatedImages &&
response.generatedImages.length > 0`). -/
structure GenerateImagesResponse where
  generatedImages : List GeneratedImage
deriving DecidableEq, Repr

/-- Result of `generateImage` (part_000 lines 103-139) as a function of its
awaited pipeline: no try/catch; the first generated image's bytes are
returned, and the generic no-image message is thrown when the provider
returns zero images. -/
def generateImageResult
    (pipeline : Except Thrown GenerateImagesResponse) : Except Thrown String :=
  match pipeline with
  | Except.error e => Except.error e
  | Except.ok resp =>
    match resp.generatedImages.head? with
    | some gi => Except.ok gi.image.imageBytes
    | none => Except.error (Thrown.error noImageMsgGeneric)

/-- File as the browser hands it to the code: a mime type (`file.type`) and
its content bytes. -/
structure JsFile where
  type : String
  bytes : List Nat
deriving DecidableEq, Repr

/-- Options record of `copyProductStyle` (part_000 lines 144-149). -/
structure CopyStyleOptions where
  copyProductStyle : Bool
  copyBackgroundStyle : Bool
  isTransparent : Bool
  prompt : Option String
deriving DecidableEq, Repr

/-- Observable side effect of an operation, used to state what has happened
before a failure: one image encoding (`fileToGenerativePart`), or the
network request (`ai.models.generateContent`). -/
inductive Effect where
  | encodeImage
  | networkCall
deriving DecidableEq, Repr

/-- Fan-out/fan-in of `Promise.all`: all outcomes are collected; the first
rejection (in input order) rejects the whole step. -/
def collectExcept {α : Type} : List (Except Thrown α) → Except Thrown (List α)
  | [] => Except.ok []
  | Except.error e :: _ => Except.error e
  | Except.ok a :: rest =>
    match collectExcept rest with
    | Except.ok as => Except.ok (a :: as)
    | Except.error e => Except.error e

/-- Message of the `InvalidSelection` failure of `copyProductStyle`
(part_000 line 155). -/
def invalidSelectionMsg : String :=
  "At least one copy option or transparent background must be selected."

/-- Catch prefix of `copyProductStyle` (part_000 line 236). -/
def copyStyleWrapPre : String := "Image processing failed: "

/-- Unknown-throw message of `copyProductStyle` (part_000 line 238). -/
def copyStyleUnknownMsg : String := "An unknown network or API error occurred."

/-- Result and effect trace of `copyProductStyle` (part_000 lines 141-240).
The toggle check sits before the `try` block and before any encoding: with
all three toggles false the `InvalidSelection` error is thrown un-wrapped
and with an empty effect trace. Inside the `try`, the source images are
encoded first (Promise.all fan-out, outcomes given by `encode`), then the
target image is encoded, then the network call runs (outcome given by
`remote`) and the shared extraction runs; any throw from these steps is
re-wrapped by the catch clause. The prompt assembly between these steps is
pure string building and does not affect the control flow modelled here. -/
def copyProductStyleRun (sourceImages : List JsFile) (targetImage : JsFile)
    (options : CopyStyleOptions)
    (encode : JsFile → Except Thrown InlineData)
    (remote : Except Thrown GenerateContentResponse) :
    Except Thrown String × List Effect :=
  if !options.copyProductStyle && !options.copyBackgroundStyle && !options.isTransparent then
    (Except.error (Thrown.error invalidSelectionMsg), [])
  else
    let sourceTrace := sourceImages.map (fun _ => Effect.encodeImage)
    match collectExcept (sourceImages.map encode) with
    | Except.error e =>
      (catchWrap copyStyleWrapPre copyStyleUnknownMsg (Except.error e), sourceTrace)
    | Except.ok _ =>
      match encode targetImage with
      | Except.error e =>
        (catchWrap copyStyleWrapPre copyStyleUnknownMsg (Except.error e),
         sourceTrace ++ [Effect.encodeImage])
      | Except.ok _ =>
        (catchWrap copyStyleWrapPre copyStyleUnknownMsg
          (extractStep noImageMsgCopyStyle remote),
         sourceTrace ++ [Effect.encodeImage, Effect.networkCall])

/-- Result of `generateStyledBackground` (part_000 lines 243-296) as a
function of its awaited pipeline: the whole body sits in a `try` whose catch
re-wraps an `Error` as "Background generation failed: " plus the original
message, and any other throw as its own unknown-error message. -/
def generateStyledBackgroundResult
    (pipeline : Except Thrown GenerateContentResponse) : Except Thrown String :=
  catchWrap ("Background generation failed: ")
    ("An unknown network or API error occurred while generating the background.")
    (extractStep noImageMsgStyledBackground pipeline)

/-- Result of `compositeProductWithBackground` (part_000 lines 298-374) as a
function of its awaited pipeline, with its own catch prefix and
unknown-error message. -/
def compositeProductWithBackgroundResult
    (pipeline : Except Thrown GenerateContentResponse) : Except Thrown String :=
  catchWrap ("Image composition failed: ")
    ("An unknown network or API error occurred during the final composition.")
    (extractStep noImageMsgCompositeWithBackground pipeline)

/-- Whitespace test used by the trim model: space, tab, line feed, carriage
return (the characters that can actually occur in this code's strings; the
ECMAScript definition also strips rarer Unicode space characters). -/
def isWsChar (c : Char) : Bool :=
  (c == ' ') || (c == '\t') || (c == '\n') || (c == '\r')

/-- Modelled from the platform: `String.prototype.trim`, removing leading
and trailing whitespace. -/
def jsTrim (s : String) : String :=
  String.mk (((s.data.dropWhile isWsChar).reverse.dropWhile isWsChar).reverse)

/-- JSON value for the subset of JSON this code exchanges: strings, objects
with ordered fields, and null. -/
inductive Json where
  | str (s : String)
  | obj (fields : List (String × Json))
  | null
deriving Repr

/-- Leading JSON whitespace skipper of the parser model. -/
def skipJsonWs : List Char → List Char
  | [] => []
  | c :: cs => if isWsChar c then skipJsonWs cs else c :: cs

/-- Body of a JSON string literal after its opening quote: the characters up
to the closing quote (escape sequences are not modelled; none occur in the
payloads considered here). -/
def parseStringBody : List Char → Option (String × List Char)
  | [] => none
  | c :: cs =>
    if c = '"' then some ("", cs)
    else
      match parseStringBody cs with
      | some (s, rest) => some (String.mk (c :: s.data), rest)
      | none => none

mutual

/-- Modelled from the platform: `JSON.parse` value parser, restricted to the
JSON subset exchanged by this code (objects with string keys, string
values, null). The fuel bounds nesting depth. -/
def parseJsonValue : Nat → List Char → Option (Json × List Char)
  | 0, _ => none
  | Nat.succ fuel, cs =>
    match skipJsonWs cs with
    | '"' :: rest => (parseStringBody rest).map (fun p => (Json.str p.1, p.2))
    | 'n' :: 'u' :: 'l' :: 'l' :: rest => some (Json.null, rest)
    | '\x7b' :: rest =>
      match skipJsonWs rest with
      | '\x7d' :: r => some (Json.obj [], r)
      | _ =>
        match parseJsonMembers fuel rest with
        | some (fields, r) => some (Json.obj fields, r)
        | none => none
    | _ => none

/-- Member list of a JSON object: `"key" : value` pairs separated by commas
and closed by a brace. -/
def parseJsonMembers : Nat → List Char → Option (List (String × Json) × List Char)
  | 0, _ => none
  | Nat.succ fuel, cs =>
    match skipJsonWs cs with
    | '"' :: rest =>
      match parseStringBody rest with
      | none => none
      | some (key, r1) =>
        match skipJsonWs r1 with
        | ':' :: r2 =>
          match parseJsonValue fuel r2 with
          | none => none
          | some (v, r3) =>
            match skipJsonWs r3 with
            | ',' :: r4 =>
              match parseJsonMembers fuel r4 with
              | some (fields, r5) => some ((key, v) :: fields, r5)
              | none => none
            | '\x7d' :: r4 => some ([(key, v)], r4)
            | _ => none
        | _ => none
    | _ => none

end

/-- Modelled from the platform: `JSON.parse` on a whole string — one value,
then nothing but whitespace. -/
def parseJson (s : String) : Option Json :=
  match parseJsonValue (s.length + 1) s.data with
  | some (v, rest) => if skipJsonWs rest = [] then some v else none
  | none => none

/-- Product detail record as the code actually produces it: the raw
`JSON.parse` result is cast to `ProductDetails` without validation, so each
of the seven fields may be absent at runtime; absence is modelled as
`none`. -/
structure ProductDetails where
  specifications : Option String
  usageInstructions : Option String
  compatibility : Option String
  maintenanceTips : Option String
  performanceMetrics : Option String
  warranty : Option String
  status : Option String
deriving DecidableEq, Repr

/-- First value of a field in a parsed JSON object, as JavaScript property
access sees it: the string value when present, `none` when the field is
absent or not a string. -/
def jsonStringField (name : String) (fields : List (String × Json)) : Option String :=
  match List.find? (fun kv => kv.1 = name) fields with
  | some (_, Json.str s) => some s
  | _ => none

/-- Unchecked cast `parsedJson as ProductDetails` (part_000 line 414): the
seven properties are read off the parsed value with no validation; a
non-object value has none of them. -/
def castProductDetails (v : Json) : ProductDetails :=
  match v with
  | Json.obj fields =>
    { specifications := jsonStringField ("specifications") fields
      usageInstructions := jsonStringField ("usageInstructions") fields
      compatibility := jsonStringField ("compatibility") fields
      maintenanceTips := jsonStringField ("maintenanceTips") fields
      performanceMetrics := jsonStringField ("performanceMetrics") fields
      warranty := jsonStringField ("warranty") fields
      status := jsonStringField ("status") fields }
  | _ =>
    { specifications := none, usageInstructions := none, compatibility := none
      maintenanceTips := none, performanceMetrics := none, warranty := none
      status := none }

/-- Inner malformed-response message of `generateProductDetails`
(part_000 line 417), thrown when the body is empty or `JSON.parse` throws. -/
def malformedDetailsMsg : String :=
  "Could not read the product details from the AI. The format might be incorrect."

/-- Outer catch prefix of `generateProductDetails` (part_000 line 422). -/
def detailsWrapPre : String := "Failed to generate details: "

/-- Result of `generateProductDetails` (part_000 lines 377-426) as a
function of its awaited pipeline (encoding plus the structured-output
network call, yielding `response.text`). The inner try/catch turns an empty
trimmed body (which first throws "API returned empty details.") or a
`JSON.parse` failure into the malformed-response message;
the parsed value is cast to `ProductDetails` without shape validation. The
outer catch then re-wraps any `Error` with "Failed to generate details: ". -/
def generateProductDetailsResult
    (pipeline : Except Thrown String) : Except Thrown ProductDetails :=
  catchWrap detailsWrapPre
    ("An unknown network or API error occurred while generating product details.")
    (match pipeline with
     | Except.error e => Except.error e
     | Except.ok text =>
       let jsonText := jsTrim text
       if jsonText = "" then Except.error (Thrown.error malformedDetailsMsg)
       else
         match parseJson jsonText with
         | none => Except.error (Thrown.error malformedDetailsMsg)
         | some v => Except.ok (castProductDetails v))

/-- Aspect ratio enumeration (`types.ts`): "1:1" | "16:9" | "9:16" | "4:3" | "3:4". -/
inductive AspectRatio where
  | r1x1
  | r16x9
  | r9x16
  | r4x3
  | r3x4
deriving DecidableEq, Repr

/-- Numerator/denominator pair of an aspect ratio string, as computed by
`aspectRatio.split(':').map(Number)` (part_000 line 481). -/
def aspectRatioNums : AspectRatio → Nat × Nat
  | AspectRatio.r1x1 => (1, 1)
  | AspectRatio.r16x9 => (16, 9)
  | AspectRatio.r9x16 => (9, 16)
  | AspectRatio.r4x3 => (4, 3)
  | AspectRatio.r3x4 => (3, 4)

/-- Canvas-size phrase lookup `getCanvasDescription` (part_000 lines 23-37). -/
def getCanvasDescription : AspectRatio → String
  | AspectRatio.r16x9 => ("a 1500 pixel wide landscape canvas with a 16:9 aspect ratio")
  | AspectRatio.r9x16 => ("a 1500 pixel tall portrait canvas with a 9:16 aspect ratio")
  | AspectRatio.r4x3 => ("a 1500 pixel wide landscape canvas with a 4:3 aspect ratio")
  | AspectRatio.r3x4 => ("a 1500 pixel tall portrait canvas with a 3:4 aspect ratio")
  | AspectRatio.r1x1 => ("a 1500x1500 pixel square canvas")

/-- Prompt assembled by `compositeProductImage` (part_000 lines 50-61): the
transparent branch is a single-sentence isolation instruction; the
non-transparent branch is the six-step template literal (steps 1-5 plus the
final-output directive), with the background description and the canvas
phrase spliced in. Whitespace, including each line's eight-space indent
inside the template literal, is reproduced from the source. -/
def compositeProductPrompt (isTransparent : Bool) (backgroundPrompt : String)
    (ratio : AspectRatio) : String :=
  let canvasDescription := getCanvasDescription ratio
  if isTransparent then
    ("You are an expert photo editor. Take the provided product image and perfectly isolate the main product from its original background. The final output must be just the product on a transparent background. Ensure the edges are exceptionally clean with no halos or artifacts. The output canvas must be ")
      ++ canvasDescription
      ++ (", with the product perfectly centered while leaving approximately 10% padding on all sides.")
  else
    ("You are a world-class product photographer and retoucher. Your task is to perform a professional product photo composite.\n        1.  **Isolate Product:** Perfectly isolate the main product from the provided image. The mask must be flawless with clean edges and no halos.\n        2.  **Create Background:** Generate a new, photorealistic background based on this description: \"")
      ++ backgroundPrompt
      ++ ("\". The background should be high-quality, whether it's a studio or lifestyle setting.\n        3.  **Composite:** Place the isolated product onto the new background.\n        4.  **Integrate:** This is critical. Analyze the lighting in the new background and realistically adjust the product's lighting, shadows, and highlights to match the scene perfectly. The product's color grading must be harmonized with the background.\n        5.  **Add Shadow:** Create a natural, soft contact shadow underneath the product to ground it in the scene. The shadow must be consistent with the direction and softness of the main light source.\n        6.  **Final Output:** The final image must be ")
      ++ canvasDescription
      ++ (". Center the product within this canvas, leaving approximately 10% padding on all sides. Preserve all original texture and fine details of the product. The final result should look like a real, professionally shot photograph.")

/-- Export quality tier (`types.ts`): 'Standard' | 'High' | 'Maximum'. -/
inductive ExportQuality where
  | standard
  | high
  | maximum
deriving DecidableEq, Repr

/-- Entry of the quality preset table: target resolution and JPEG
compression quality. The JPEG factors are floating-point literals in the
source; they are modelled as the corresponding decimal rationals. -/
structure QualityPreset where
  resolution : Nat
  jpegQuality : ℚ
deriving Repr

/-- Quality preset table `QUALITY_PRESETS` (part_000 lines 467-471). -/
def QUALITY_PRESETS : ExportQuality → QualityPreset
  | ExportQuality.standard => { resolution := 1024, jpegQuality := (0.85 : ℚ) }
  | ExportQuality.high => { resolution := 1500, jpegQuality := (0.92 : ℚ) }
  | ExportQuality.maximum => { resolution := 1500, jpegQuality := (1.0 : ℚ) }

/-- Round-half-up of the quotient `num / den` over naturals:
`Math.round(num / den)` equals `floor(num / den + 1 / 2)` for the
non-negative values arising here, which is `(2 * num + den) / (2 * den)`
in integer arithmetic. Every quotient reached through
`getCanvasDimensions` has a power-of-two-times-small denominator whose
floating-point evaluation is exact, so the natural-number model is
bit-for-bit faithful to `Math.round(resolution * h / w)`. -/
def roundHalfUpNat (num den : Nat) : Nat :=
  (2 * num + den) / (2 * den)

/-- Dimension computation `getCanvasDimensions` (part_000 lines 480-493):
landscape or square keeps width at the resolution and rounds the height;
portrait inverts the roles. -/
def getCanvasDimensions (resolution : Nat) (ratio : AspectRatio) : Nat × Nat :=
  let wh := aspectRatioNums ratio
  if wh.2 ≤ wh.1 then
    (resolution, roundHalfUpNat (resolution * wh.2) wh.1)
  else
    (roundHalfUpNat (resolution * wh.1) wh.2, resolution)

/-- Spec-side rounding (stated from the spec's words): standard round-half-up
over the rationals, `floor(q + 1/2)`. -/
def specRoundHalfUp (q : ℚ) : ℤ :=
  Int.floor (q + (1 : ℚ) / 2)

/-- Spec-side dimension computation (stated from the spec's words, to be
compared with `getCanvasDimensions`): for landscape or square ratios
width = resolution and height = round(resolution x h / w); for portrait
ratios the roles invert; rounding is round-half-up over exact rationals. -/
def specCanvasDimensions (resolution : Nat) (ratio : AspectRatio) : ℤ × ℤ :=
  let wh := aspectRatioNums ratio
  if wh.2 ≤ wh.1 then
    ((resolution : ℤ), specRoundHalfUp ((resolution : ℚ) * (wh.2 : ℚ) / (wh.1 : ℚ)))
  else
    (specRoundHalfUp ((resolution : ℚ) * (wh.1 : ℚ) / (wh.2 : ℚ)), (resolution : ℤ))

/-- Background preset entry of the ProductStudio view. -/
structure BackgroundPreset where
  label : String
  prompt : String
deriving DecidableEq, Repr

/-- Built-in preset list `BACKGROUND_PRESETS` (ProductStudio.tsx lines 118-128). -/
def BACKGROUND_PRESETS : List BackgroundPreset :=
  [⟨"Studio White", "A clean, white studio background with soft, diffused lighting."⟩,
   ⟨"Rustic Wood", "A rustic wooden tabletop with a warm, cozy atmosphere."⟩,
   ⟨"Marble Counter", "A sleek, modern kitchen counter made of marble."⟩,
   ⟨"Forest Floor", "Outdoors on a mossy rock in a lush, green forest."⟩,
   ⟨"Reflective Black", "On a reflective black surface with dramatic, cinematic lighting."⟩,
   ⟨"Sandy Beach", "On a sandy beach with gentle waves and soft sunlight."⟩,
   ⟨"Abstract Gradient", "Suspended in mid-air against a vibrant, abstract, colorful gradient background."⟩,
   ⟨"Coffee Beans", "Resting on a pile of freshly roasted coffee beans with gentle steam rising."⟩,
   ⟨"Minimalist Room", "In a bright, minimalist, Scandinavian-style room with natural light from a window."⟩]

/-- Preset save handler `handleSavePreset` (ProductStudio.tsx lines 85-101),
acting on the user preset list and the persisted store (the store is
modelled as the string array it encodes under the fixed key). The prompt is
trimmed; an empty trimmed prompt returns early; a trimmed prompt already in
the built-in or user lists returns early; otherwise the trimmed prompt is
appended to the list and the new list is persisted. -/
def handleSavePreset (backgroundPrompt : String) (userPresets : List String)
    (store : List String) : List String × List String :=
  let trimmedPrompt := jsTrim backgroundPrompt
  if trimmedPrompt = "" then (userPresets, store)
  else
    let allPrompts := BACKGROUND_PRESETS.map (fun p => p.prompt) ++ userPresets
    if allPrompts.contains trimmedPrompt then (userPresets, store)
    else (userPresets ++ [trimmedPrompt], userPresets ++ [trimmedPrompt])

/-- Uploaded image as the views hold it (`types.ts`): the file plus a
preview reference. -/
structure ImageFile where
  file : JsFile
  previewUrl : String
deriving DecidableEq, Repr

/-- Local interaction state of the ProductStudio view
(ProductStudio.tsx lines 13-22). -/
structure StudioState where
  productImage : Option ImageFile
  backgroundPrompt : String
  userPresets : List String
  isTransparent : Bool
  isLoading : Bool
  error : Option String
  resultImage : Option String
  exportQuality : ExportQuality
  aspectRatio : AspectRatio
deriving DecidableEq, Repr

/-- Submit handler `handleSubmit` of the ProductStudio view
(ProductStudio.tsx lines 40-63) as a state transition, with the outcome of
the remote composite operation supplied as an argument. Precondition
failures set only the error message. Otherwise the handler sets loading,
clears the error and clears the result image before awaiting the
operation; on success the result image is set; on failure a fixed error
message is set (leaving the result image cleared); loading ends either
way. -/
def handleSubmit (s : StudioState)
    (remote : Except Thrown GenerateContentResponse) : StudioState :=
  match s.productImage with
  | none => { s with error := some ("Please upload a product image.") }
  | some _ =>
    if s.backgroundPrompt = "" && !s.isTransparent then
      { s with error := some ("Please provide a background description.") }
    else
      match compositeProductImageResult remote with
      | Except.ok img =>
        { s with isLoading := false, error := none, resultImage := some img }
      | Except.error _ =>
        { s with
          isLoading := false
          resultImage := none
          error := some ("An error occurred while generating the image. Please try again.") }

/-- Prefix test over character lists (drives both the JavaScript
`String.prototype.startsWith` model and the substring search). -/
def isPrefixList : List Char → List Char → Bool
  | [], _ => true
  | _ :: _, [] => false
  | a :: as, b :: bs => a == b && isPrefixList as bs

/-- Modelled from the platform: `s.startsWith(p)`. -/
def jsStartsWith (s p : String) : Bool :=
  isPrefixList p.data s.data

/-- File-selection loop of `handleFiles` in `MultiImageDropzone`
(part_001 lines 15-29): walking the dropped file list, the loop breaks as
soon as the current image count plus the files accepted so far reaches
`maxFiles`, and otherwise accepts exactly the files whose mime type starts
with "image/". The count argument carries
`images.length + addedFiles.length`. -/
def handleFilesAux (count maxFiles : Nat) : List JsFile → List JsFile
  | [] => []
  | f :: fs =>
    if maxFiles ≤ count then []
    else if jsStartsWith f.type ("image/") then
      f :: handleFilesAux (count + 1) maxFiles fs
    else
      handleFilesAux count maxFiles fs

/-- Files accepted by one `handleFiles` call of `MultiImageDropzone`
(part_001 lines 15-29), given the images already held. -/
def handleFiles (images : List JsFile) (maxFiles : Nat) (files : List JsFile) :
    List JsFile :=
  handleFilesAux images.length maxFiles files

/-- Image list after a sequence of drop/pick batches, starting empty: each
batch appends the files `handleFiles` accepts (`onImagesAdd` appends them
to the held list). -/
def dropzoneRun (maxFiles : Nat) (batches : List (List JsFile)) : List JsFile :=
  batches.foldl (fun st fs => st ++ handleFiles st maxFiles fs) []

/-- Base64 alphabet in index order, as used by the platform's data-URL
encoder and `atob`. -/
def base64Alphabet : List Char :=
  ("ABCDEFGHIJKLMNOPQRSTUVWXYZabcdefghijklmnopqrstuvwxyz0123456789+/").data

/-- Character of a six-bit group. -/
def sextetToChar (n : Nat) : Char :=
  base64Alphabet.getD n 'A'

/-- Six-bit group of a base64 character (`atob` direction). -/
def charToSextet (c : Char) : Nat :=
  base64Alphabet.findIdx (fun x => x == c)

/-- Modelled from the platform: standard base64 encoding with padding, the
payload `FileReader.readAsDataURL` places after "base64," in the data URL.
Bytes are taken three at a time into four sextet characters; a one-byte
tail yields two characters plus "==", a two-byte tail three characters
plus "=". -/
def encodeBase64 : List Nat → List Char
  | [] => []
  | [b1] => [sextetToChar (b1 / 4), sextetToChar (b1 % 4 * 16), '=', '=']
  | [b1, b2] =>
    [sextetToChar (b1 / 4), sextetToChar (b1 % 4 * 16 + b2 / 16),
     sextetToChar (b2 % 16 * 4), '=']
  | b1 :: b2 :: b3 :: rest =>
    sextetToChar (b1 / 4) :: sextetToChar (b1 % 4 * 16 + b2 / 16) ::
    sextetToChar (b2 % 16 * 4 + b3 / 64) :: sextetToChar (b3 % 64) ::
    encodeBase64 rest

/-- Modelled from the platform: `atob` followed by the byte-extraction loop
of `base64ToFile` (`charCodeAt` over the decoded characters), yielding the
byte values. Characters are taken four at a time into three bytes; a
"==" tail yields one byte, a "=" tail two. Inputs `atob` would reject are
mapped to the empty list; they are never produced by the encoder. -/
def decodeBase64 : List Char → List Nat
  | c1 :: c2 :: c3 :: c4 :: rest =>
    if c3 = '=' ∧ c4 = '=' ∧ rest = [] then
      [charToSextet c1 * 4 + charToSextet c2 / 16]
    else if c4 = '=' ∧ rest = [] then
      [charToSextet c1 * 4 + charToSextet c2 / 16,
       charToSextet c2 % 16 * 16 + charToSextet c3 / 4]
    else
      (charToSextet c1 * 4 + charToSextet c2 / 16) ::
      (charToSextet c2 % 16 * 16 + charToSextet c3 / 4) ::
      (charToSextet c3 % 4 * 64 + charToSextet c4) ::
      decodeBase64 rest
  | _ => []

/-- Data URL produced by `FileReader.readAsDataURL` for a file:
"data:" + mime type + ";base64," + base64 payload of the bytes. -/
def readAsDataURL (file : JsFile) : String :=
  ("data:") ++ file.type ++ (";base64,") ++ String.mk (encodeBase64 file.bytes)

/-- Everything after the first comma of a character list. This models
`result.split(',')[1]` (fileUtils line 437) exactly whenever the text
after the first comma contains no further comma, which holds for every
base64 payload. -/
def dropThroughComma : List Char → List Char
  | [] => []
  | c :: cs => if c = ',' then cs else dropThroughComma cs

/-- File-to-base64 conversion `fileToBase64` (fileUtils lines 430-441):
the file is read as a data URL and the part after the comma — the base64
payload — is returned. -/
def fileToBase64 (file : JsFile) : String :=
  String.mk (dropThroughComma (readAsDataURL file).data)

/-- File object as `base64ToFile` constructs it: name, mime type, bytes. -/
structure NamedFile where
  name : String
  type : String
  bytes : List Nat
deriving DecidableEq, Repr

/-- Base64-to-file conversion `base64ToFile` (fileUtils lines 456-465):
`atob` decodes the payload, the loop collects the character codes into a
byte array, and a file with the given name and mime type is built over
those bytes. -/
def base64ToFile (base64 : String) (filename : String) (mimeType : String) :
    NamedFile :=
  { name := filename, type := mimeType, bytes := decodeBase64 base64.data }

/-- Search for the first occurrence of a pattern in a character list,
returning the remainder after that occurrence. -/
def findSubAfter (pat : List Char) : List Char → Option (List Char)
  | [] => if pat.isEmpty then some [] else none
  | c :: cs =>
    if isPrefixList pat (c :: cs) then some (List.drop pat.length (c :: cs))
    else findSubAfter pat cs

/-- Substring test: the pattern occurs somewhere in the string. -/
def containsSub (s pat : String) : Bool :=
  (findSubAfter pat.data s.data).isSome

/-- Ordered-occurrence test: each marker occurs in the string, each strictly
after the end of the previous marker's occurrence. -/
def containsInOrder (cs : List Char) : List String → Bool
  | [] => true
  | m :: ms =>
    match findSubAfter m.data cs with
    | some rest => containsInOrder rest ms
    | none => false


/-- Concrete response used in statements: one candidate whose first part is
text and whose second part carries inline image bytes. -/
def textThenImageResponse : GenerateContentResponse :=
  { candidates := [{ content := some { parts :=
      [{ text := some ("Here is the image:"), inlineData := none },
       { text := none, inlineData := some { data := "AAAA", mimeType := "image/png" } }] } }] }

/-- Concrete response used in statements: a response with no candidates (and
hence no inline-image part anywhere). -/
def noPartResponse : GenerateContentResponse :=
  { candidates := [] }

/-- Concrete ProductStudio state used in statements: a product image is
loaded, a background is described, and a previous result image is on
screen. -/
def studioStateBefore : StudioState :=
  { productImage := some { file := { type := "image/png", bytes := [1, 2, 3] }
                           previewUrl := "blob:product" }
    backgroundPrompt := "A cozy scene"
    userPresets := []
    isTransparent := false
    isLoading := false
    error := none
    resultImage := some ("previousResult")
    exportQuality := ExportQuality.high
    aspectRatio := AspectRatio.r1x1 }

/-- Concrete response body used in statements: valid JSON carrying the seven
required string fields. -/
def sampleDetailsBody : String :=
  "\x7b\"specifications\":\"spec text\",\"usageInstructions\":\"usage text\",\"compatibility\":\"compat text\",\"maintenanceTips\":\"tips text\",\"performanceMetrics\":\"metrics text\",\"warranty\":\"warranty text\",\"status\":\"status text\"\x7d"

/-- Claim C4: for every aspect ratio in the enumeration and every quality
tier's resolution (Standard 1024, High 1500, Maximum 1500),
`getCanvasDimensions` returns width = resolution and
height = round(resolution x h / w) when w is at least h, and
width = round(resolution x w / h) and height = resolution otherwise, where
round is exact-rational round-half-up (floor of the value plus one half). -/
theorem getCanvasDimensions_matches_spec :
    ∀ (quality : ExportQuality) (ratio : AspectRatio),
      ((getCanvasDimensions (QUALITY_PRESETS quality).resolution ratio).1 : ℤ) =
        (specCanvasDimensions (QUALITY_PRESETS quality).resolution ratio).1 ∧
      ((getCanvasDimensions (QUALITY_PRESETS quality).resolution ratio).2 : ℤ) =
        (specCanvasDimensions (QUALITY_PRESETS quality).resolution ratio).2 := by
  intro quality ratio
  cases quality <;> cases ratio <;>
    constructor <;>
      simp only [getCanvasDimensions, specCanvasDimensions, aspectRatioNums,
        QUALITY_PRESETS, roundHalfUpNat, specRoundHalfUp] <;>
      norm_num <;>
      rw [Int.floor_eq_iff] <;> norm_num

/-- Claim C6: whenever `copyProductStyle` is called with copyProductStyle,
copyBackgroundStyle and isTransparent all false, it fails with the
InvalidSelection error, and its effect trace is empty: no image encoding
and no network call has been performed. -/
theorem copyStyle_invalid_selection_fails_before_effects
    (sources : List JsFile) (target : JsFile) (options : CopyStyleOptions)
    (encode : JsFile → Except Thrown InlineData)
    (remote : Except Thrown GenerateContentResponse)
    (h1 : options.copyProductStyle = false)
    (h2 : options.copyBackgroundStyle = false)
    (h3 : options.isTransparent = false) :
    copyProductStyleRun sources target options encode remote =
      (Except.error (Thrown.error invalidSelectionMsg), []) := by
  unfold copyProductStyleRun
  rw [h1, h2, h3]
  simp

/-- Witness for C6 at a concrete call. -/
theorem copyStyle_invalid_selection_fails_before_effects_witness :
    copyProductStyleRun [⟨"image/png", [7]⟩] ⟨"image/jpeg", [9]⟩
        ⟨false, false, false, none⟩
        (fun _ => Except.ok ⟨"ZQ==", "image/png"⟩)
        (Except.error Thrown.nonError) =
      (Except.error (Thrown.error invalidSelectionMsg), []) :=
  copyStyle_invalid_selection_fails_before_effects _ _ _ _ _ rfl rfl rfl

/-- Counterexample to claim C7 as stated: the string " Rustic" is already
present in the user preset list, yet saving it again is not a no-op — the
handler trims before the duplicate check, "Rustic" is not in any list, and
so the trimmed form is appended to the list and the store. -/
theorem savePreset_untrimmed_duplicate_not_noop :
    (" Rustic") ∈ ([" Rustic"] : List String) ∧
    handleSavePreset (" Rustic") [" Rustic"] [" Rustic"] =
      ([" Rustic", "Rustic"], [" Rustic", "Rustic"]) := by
  constructor
  · simp
  · decide

/-- Claim C7 as amended: for every prompt whose trimmed form is already
present in the built-in preset list or the user preset list (or trims to
the empty string), preset save is a no-op: the user preset list and the
persisted store are both unchanged. -/
theorem savePreset_trimmed_duplicate_noop
    (backgroundPrompt : String) (userPresets store : List String)
    (h : jsTrim backgroundPrompt = "" ∨
      (BACKGROUND_PRESETS.map (fun p => p.prompt) ++ userPresets).contains
        (jsTrim backgroundPrompt) = true) :
    handleSavePreset backgroundPrompt userPresets store = (userPresets, store) := by
  unfold handleSavePreset
  rcases h with h | h
  · simp [h]
  · by_cases he : jsTrim backgroundPrompt = ""
    · simp [he]
    · simp [he, h]
      intro hall
      rcases List.mem_append.mp (List.mem_of_elem_eq_true h) with hmem | hmem
      · rcases List.mem_map.mp hmem with ⟨p, hp, hpe⟩
        exact absurd hpe (hall p hp)
      · exact hmem

/-- Witness for C7: saving the built-in "Studio White" prompt over empty
user state is a no-op. -/
theorem savePreset_trimmed_duplicate_noop_witness :
    handleSavePreset ("A clean, white studio background with soft, diffused lighting.")
      [] [] = ([], []) :=
  savePreset_trimmed_duplicate_noop _ [] [] (Or.inr (by decide))

set_option maxRecDepth 100000 in
/-- Claim C8: the prompt assembled by the composite operation for aspect
ratio 16:9, non-transparent, with the studio background text, contains the
five step markers in order (isolate, generate background, composite,
integrate, add shadow) and the exact canvas phrase. -/
theorem composite_prompt_contains_steps_and_canvas :
    containsInOrder (compositeProductPrompt false
        ("A clean, white studio background with soft, diffused lighting.")
        AspectRatio.r16x9).data
      [("Isolate Product"),
       ("Create Background:** Generate a new, photorealistic background"),
       ("Composite"), ("Integrate"), ("Add Shadow")] = true ∧
    containsSub (compositeProductPrompt false
        ("A clean, white studio background with soft, diffused lighting.")
        AspectRatio.r16x9)
      ("1500 pixel wide landscape canvas with a 16:9 aspect ratio") = true := by
  decide

/-- Counterexample to claim C1 as stated: a response whose first candidate
has a text part followed by an inline-image part. The response does contain
an inline-image part — the scan the spec describes finds it — yet the
extraction used by the five operations inspects only the head part and
fails with the no-image error. -/
theorem extract_skips_later_inline_part :
    responseHasInlineImage textThenImageResponse = true ∧
    firstInlineImageOfFirstCandidate textThenImageResponse =
      some { data := "AAAA", mimeType := "image/png" } ∧
    extractFirstPartImage noImageMsgGeneric textThenImageResponse =
      Except.error noImageMsgGeneric := by
  refine ⟨rfl, rfl, rfl⟩

/-- Claim C1 as amended: the shared extraction step of the five
image-producing operations looks only at the first part of the first
candidate. It succeeds with exactly that part's inline data when the part
carries inline image bytes, and fails with the operation's no-image error
if and only if the first part of the first candidate is absent or carries
no inline image data — even when a later part of the response does carry
an image. -/
theorem extract_uses_only_head_part (noImageMsg : String)
    (resp : GenerateContentResponse) :
    (∀ d : String, extractFirstPartImage noImageMsg resp = Except.ok d ↔
      ∃ p rest, firstCandidateParts resp = p :: rest ∧
        Option.map InlineData.data p.inlineData = some d) ∧
    (extractFirstPartImage noImageMsg resp = Except.error noImageMsg ↔
      ∀ p rest, firstCandidateParts resp = p :: rest → p.inlineData = none) := by
  obtain ⟨cands⟩ := resp
  cases cands with
  | nil => simp [extractFirstPartImage, firstCandidateParts]
  | cons c cs =>
    obtain ⟨ct⟩ := c
    cases ct with
    | none => simp [extractFirstPartImage, firstCandidateParts]
    | some content =>
      obtain ⟨parts⟩ := content
      cases parts with
      | nil => simp [extractFirstPartImage, firstCandidateParts]
      | cons p ps =>
        cases hp : p.inlineData with
        | none =>
          simp [extractFirstPartImage, firstCandidateParts, hp]
        | some idata =>
          constructor
          · intro d
            simp only [extractFirstPartImage, firstCandidateParts, List.head?,
              hp, Except.ok.injEq]
            constructor
            · intro hd
              exact ⟨p, ps, rfl, by simp [hp, hd]⟩
            · rintro ⟨q, rest, hqr, hq⟩
              obtain ⟨rfl, rfl⟩ := List.cons.injEq p ps q rest ▸ hqr
              simpa [hp] using hq
            
          · simp only [extractFirstPartImage, firstCandidateParts, List.head?, hp]
            constructor
            · intro hcontra
              exact absurd hcontra (by simp)
            · intro hall
              have := hall p ps rfl
              rw [hp] at this
              cases this

/-- Counterexample to claim C2 as stated: starting from a state that shows a
previous result image, a submit whose remote response has no inline-image
part fails with the no-image error, but the previously displayed result
image is not left as it was — the handler cleared it at the start of the
operation, so the view ends with no result image. -/
theorem handleSubmit_failure_discards_previous_result :
    compositeProductImageResult (Except.ok noPartResponse) =
      Except.error (Thrown.error noImageMsgGeneric) ∧
    studioStateBefore.resultImage = some ("previousResult") ∧
    (handleSubmit studioStateBefore (Except.ok noPartResponse)).resultImage = none := by
  refine ⟨rfl, rfl, rfl⟩

/-- Claim C2 as amended: when the preconditions pass (a product image is
loaded, and the background prompt is non-empty or transparency is on) and
the composite operation fails — in particular with the no-image error —
the handler ends with loading off, the fixed error message set, and the
result image cleared (it was nulled at the start of the operation, so a
previously displayed result is discarded rather than preserved); every
other field of the view state is left exactly as it was. -/
theorem handleSubmit_failure_state (s : StudioState)
    (remote : Except Thrown GenerateContentResponse) (e : Thrown)
    (himg : s.productImage.isSome = true)
    (hpre : ((s.backgroundPrompt == "") && !s.isTransparent) = false)
    (hfail : compositeProductImageResult remote = Except.error e) :
    handleSubmit s remote =
      { s with
        isLoading := false
        resultImage := none
        error := some ("An error occurred while generating the image. Please try again.") } := by
  unfold handleSubmit
  cases hps : s.productImage with
  | none => rw [hps] at himg; simp at himg
  | some img =>
    have hpre2 : (decide (s.backgroundPrompt = "") && !s.isTransparent) = false := hpre
    simp only [hpre2, Bool.false_eq_true, if_false, hfail]

/-- Witness for C2's amended theorem at the concrete state and response. -/
theorem handleSubmit_failure_state_witness :
    handleSubmit studioStateBefore (Except.ok noPartResponse) =
      { studioStateBefore with
        isLoading := false
        resultImage := none
        error := some ("An error occurred while generating the image. Please try again.") } :=
  handleSubmit_failure_state studioStateBefore (Except.ok noPartResponse)
    (Thrown.error noImageMsgGeneric) rfl rfl rfl

/-- Counterexample to claim C3 as stated: a lower-level failure inside
`compositeProductImage` is not re-wrapped into a task-specific error — the
operation has no try/catch, so the underlying failure propagates to the
caller completely unchanged. -/
theorem compositeProductImage_does_not_wrap_failures :
    compositeProductImageResult (Except.error (Thrown.error ("network failure"))) =
      Except.error (Thrown.error ("network failure")) := rfl

/-- Claim C3 as amended: only `copyProductStyle`,
`generateStyledBackground`, `compositeProductWithBackground` and
`generateProductDetails` re-wrap lower-level failures, prefixing their
task-specific message to an `Error`'s original message (so a specific kind
already raised — such as the no-image error — stays distinguishable as the
preserved suffix of the wrapped message) and replacing a non-`Error` throw
by their generic unknown-error message; `compositeProductImage`,
`editImageWithPrompt` and `generateImage` have no wrapping layer and
propagate lower-level failures unchanged. -/
theorem remote_failure_wrapping_policy :
    (∀ e : Thrown,
      compositeProductImageResult (Except.error e) = Except.error e) ∧
    (∀ e : Thrown,
      editImageWithPromptResult (Except.error e) = Except.error e) ∧
    (∀ e : Thrown,
      generateImageResult (Except.error e) = Except.error e) ∧
    (∀ (sources : List JsFile) (target : JsFile) (options : CopyStyleOptions)
       (encode : JsFile → Except Thrown InlineData) (parts : List InlineData)
       (tpart : InlineData) (m : String),
      (options.copyProductStyle = true ∨ options.copyBackgroundStyle = true ∨
        options.isTransparent = true) →
      collectExcept (sources.map encode) = Except.ok parts →
      encode target = Except.ok tpart →
      (copyProductStyleRun sources target options encode
          (Except.error (Thrown.error m))).1 =
        Except.error (Thrown.error (copyStyleWrapPre ++ m))) ∧
    (∀ (sources : List JsFile) (target : JsFile) (options : CopyStyleOptions)
       (encode : JsFile → Except Thrown InlineData) (parts : List InlineData)
       (tpart : InlineData) (resp : GenerateContentResponse),
      (options.copyProductStyle = true ∨ options.copyBackgroundStyle = true ∨
        options.isTransparent = true) →
      collectExcept (sources.map encode) = Except.ok parts →
      encode target = Except.ok tpart →
      extractFirstPartImage noImageMsgCopyStyle resp =
        Except.error noImageMsgCopyStyle →
      (copyProductStyleRun sources target options encode (Except.ok resp)).1 =
        Except.error (Thrown.error (copyStyleWrapPre ++ noImageMsgCopyStyle))) ∧
    (∀ m : String,
      generateStyledBackgroundResult (Except.error (Thrown.error m)) =
        Except.error (Thrown.error (("Background generation failed: ") ++ m))) ∧
    (∀ m : String,
      compositeProductWithBackgroundResult (Except.error (Thrown.error m)) =
        Except.error (Thrown.error (("Image composition failed: ") ++ m))) ∧
    (∀ m : String,
      generateProductDetailsResult (Except.error (Thrown.error m)) =
        Except.error (Thrown.error (detailsWrapPre ++ m))) ∧
    (generateStyledBackgroundResult (Except.error Thrown.nonError) =
      Except.error (Thrown.error ("An unknown network or API error occurred while generating the background."))) := by
  refine ⟨fun e => rfl, fun e => rfl, fun e => rfl, ?_, ?_, fun m => rfl, fun m => rfl, fun m => rfl, rfl⟩
  · intro sources target options encode parts tpart m hvalid henc htgt
    unfold copyProductStyleRun
    have hcond : (!options.copyProductStyle && !options.copyBackgroundStyle &&
        !options.isTransparent) = false := by
      rcases hvalid with h | h | h <;> simp [h]
    simp only [hcond, Bool.false_eq_true, if_false, henc, htgt]
    rfl
  · intro sources target options encode parts tpart resp hvalid henc htgt hext
    unfold copyProductStyleRun
    have hcond : (!options.copyProductStyle && !options.copyBackgroundStyle &&
        !options.isTransparent) = false := by
      rcases hvalid with h | h | h <;> simp [h]
    simp only [hcond, Bool.false_eq_true, if_false, henc, htgt]
    simp only [extractStep, hext]
    rfl

/-- Helper: the selection loop never lets the running count pass the cap. -/
theorem handleFilesAux_length_le (maxFiles : Nat) :
    ∀ (files : List JsFile) (count : Nat), count ≤ maxFiles →
      count + (handleFilesAux count maxFiles files).length ≤ maxFiles := by
  intro files
  induction files with
  | nil => intro count h; simpa [handleFilesAux]
  | cons f fs ih =>
    intro count h
    unfold handleFilesAux
    by_cases hc : maxFiles ≤ count
    · simp only [hc, if_true, List.length_nil]
      omega
    · simp only [hc, if_false]
      by_cases himg : jsStartsWith f.type ("image/")
      · simp only [himg, if_true, List.length_cons]
        have := ih (count + 1) (by omega)
        omega
      · simp only [himg, Bool.false_eq_true, if_false]
        exact ih count h

/-- Helper: every file the selection loop accepts has an image mime type. -/
theorem handleFilesAux_mem_image (maxFiles : Nat) :
    ∀ (files : List JsFile) (count : Nat) (f : JsFile),
      f ∈ handleFilesAux count maxFiles files →
      jsStartsWith f.type ("image/") = true := by
  intro files
  induction files with
  | nil => intro count f h; simp [handleFilesAux] at h
  | cons g fs ih =>
    intro count f h
    unfold handleFilesAux at h
    by_cases hc : maxFiles ≤ count
    · simp only [hc, if_true] at h
      simp at h
    · simp only [hc, if_false] at h
      by_cases himg : jsStartsWith g.type ("image/")
      · simp only [himg, if_true, List.mem_cons] at h
        rcases h with rfl | h
        · exact himg
        · exact ih (count + 1) f h
      · simp only [himg, Bool.false_eq_true, if_false] at h
        exact ih count f h

/-- Helper: the dropzone fold preserves the cap and the
image-mime-type invariant from any starting list that satisfies them. -/
theorem dropzoneFold_invariant (maxFiles : Nat) :
    ∀ (batches : List (List JsFile)) (st : List JsFile),
      st.length ≤ maxFiles →
      (∀ f ∈ st, jsStartsWith f.type ("image/") = true) →
      (batches.foldl (fun acc fs => acc ++ handleFiles acc maxFiles fs) st).length ≤ maxFiles ∧
      ∀ f ∈ batches.foldl (fun acc fs => acc ++ handleFiles acc maxFiles fs) st,
        jsStartsWith f.type ("image/") = true := by
  intro batches
  induction batches with
  | nil => intro st h1 h2; exact ⟨h1, h2⟩
  | cons b bs ih =>
    intro st h1 h2
    simp only [List.foldl_cons]
    apply ih
    · rw [List.length_append]
      have := handleFilesAux_length_le maxFiles b st.length h1
      unfold handleFiles
      omega
    · intro f hf
      rcases List.mem_append.mp hf with hmem | hmem
      · exact h2 f hmem
      · exact handleFilesAux_mem_image maxFiles b st.length f hmem

/-- Claim C10: across every sequence of file batches added through the
multi-image dropzone (starting from an empty list), the accepted image list
never exceeds the cap, and every accepted file's mime type starts with
"image/" — non-image files and files beyond the cap are dropped, so the
1..5 source-image precondition is upheld at the UI boundary. -/
theorem dropzone_respects_cap_and_image_filter (maxFiles : Nat)
    (batches : List (List JsFile)) :
    (dropzoneRun maxFiles batches).length ≤ maxFiles ∧
    ∀ f ∈ dropzoneRun maxFiles batches, jsStartsWith f.type ("image/") = true :=
  dropzoneFold_invariant maxFiles batches [] (by simp) (by simp)

/-- Counterexample to claim C9 as stated: the body consisting of an empty
JSON object is valid JSON, but is not valid against the seven-field shape —
yet `generateProductDetails` does not fail with the malformed-response
error: the parsed value is cast without validation and returned with every
field absent. -/
theorem generateProductDetails_accepts_shapeless_json :
    parseJson ("\x7b\x7d") = some (Json.obj []) ∧
    generateProductDetailsResult (Except.ok ("\x7b\x7d")) =
      Except.ok { specifications := none, usageInstructions := none,
                  compatibility := none, maintenanceTips := none,
                  performanceMetrics := none, warranty := none, status := none } := by
  refine ⟨rfl, rfl⟩

/-- Claim C9 as amended: `generateProductDetails` fails (with the
malformed-response message, wrapped by the outer catch) exactly when the
trimmed response body is empty or fails to parse as JSON; whenever the
trimmed body parses, the parsed value is returned through the unchecked
cast, so present string fields are populated verbatim and a body that is
valid JSON without the seven required fields is returned with those fields
absent instead of failing. -/
theorem generateProductDetails_parse_policy (s : String) :
    (generateProductDetailsResult (Except.ok s) =
        Except.error (Thrown.error (detailsWrapPre ++ malformedDetailsMsg)) ↔
      (jsTrim s = "" ∨ parseJson (jsTrim s) = none)) ∧
    (∀ v, parseJson (jsTrim s) = some v →
      generateProductDetailsResult (Except.ok s) = Except.ok (castProductDetails v)) := by
  by_cases he : jsTrim s = ""
  · constructor
    · simp [generateProductDetailsResult, catchWrap, he]
    · intro v hv
      have h0 : parseJson ("") = none := rfl
      rw [he, h0] at hv
      exact Option.noConfusion hv
  · cases hp : parseJson (jsTrim s) with
    | none =>
      constructor
      · simp [generateProductDetailsResult, catchWrap, he, hp]
      · intro v hv
        exact Option.noConfusion hv
    | some v0 =>
      constructor
      · simp [generateProductDetailsResult, catchWrap, he, hp]
      · intro v hv
        injection hv with hveq
        subst hveq
        simp [generateProductDetailsResult, catchWrap, he, hp]

set_option maxRecDepth 100000 in
/-- Witness for C9's amended theorem: the concrete seven-field body parses
and every field comes back verbatim. -/
theorem generateProductDetails_parse_policy_witness :
    generateProductDetailsResult (Except.ok sampleDetailsBody) =
      Except.ok { specifications := some ("spec text")
                  usageInstructions := some ("usage text")
                  compatibility := some ("compat text")
                  maintenanceTips := some ("tips text")
                  performanceMetrics := some ("metrics text")
                  warranty := some ("warranty text")
                  status := some ("status text") } :=
  (generateProductDetails_parse_policy sampleDetailsBody).2
    (Json.obj [("specifications", Json.str ("spec text")),
               ("usageInstructions", Json.str ("usage text")),
               ("compatibility", Json.str ("compat text")),
               ("maintenanceTips", Json.str ("tips text")),
               ("performanceMetrics", Json.str ("metrics text")),
               ("warranty", Json.str ("warranty text")),
               ("status", Json.str ("status text"))])
    rfl

/-- Helper: decoding a base64 character produced from a six-bit value
recovers that value. -/
theorem charToSextet_sextetToChar : ∀ n, n < 64 →
    charToSextet (sextetToChar n) = n := by decide

/-- Helper: no six-bit value encodes to the padding character. -/
theorem sextetToChar_ne_pad : ∀ n, n < 64 → ¬(sextetToChar n = '=') := by decide

/-- Helper: decoding inverts encoding on every byte list. -/
theorem decodeBase64_encodeBase64 : ∀ (bs : List Nat), (∀ b ∈ bs, b < 256) →
    decodeBase64 (encodeBase64 bs) = bs
  | [], _ => rfl
  | [b1], h => by
    have hb1 : b1 < 256 := h b1 (by simp)
    have h1 : b1 / 4 < 64 := by omega
    have h2 : b1 % 4 * 16 < 64 := by omega
    show decodeBase64 [sextetToChar (b1 / 4), sextetToChar (b1 % 4 * 16), '=', '='] = [b1]
    simp only [decodeBase64]
    rw [if_pos (by simp)]
    rw [charToSextet_sextetToChar _ h1, charToSextet_sextetToChar _ h2]
    have g1 : b1 / 4 * 4 + b1 % 4 * 16 / 16 = b1 := by omega
    rw [g1]
  | [b1, b2], h => by
    have hb1 : b1 < 256 := h b1 (by simp)
    have hb2 : b2 < 256 := h b2 (by simp)
    have h1 : b1 / 4 < 64 := by omega
    have h2 : b1 % 4 * 16 + b2 / 16 < 64 := by omega
    have h3 : b2 % 16 * 4 < 64 := by omega
    show decodeBase64 [sextetToChar (b1 / 4), sextetToChar (b1 % 4 * 16 + b2 / 16),
        sextetToChar (b2 % 16 * 4), '='] = [b1, b2]
    simp only [decodeBase64]
    rw [if_neg (fun hcon => sextetToChar_ne_pad _ h3 hcon.1)]
    rw [if_pos (by simp)]
    rw [charToSextet_sextetToChar _ h1, charToSextet_sextetToChar _ h2,
      charToSextet_sextetToChar _ h3]
    have g1 : b1 / 4 * 4 + (b1 % 4 * 16 + b2 / 16) / 16 = b1 := by omega
    have g2 : (b1 % 4 * 16 + b2 / 16) % 16 * 16 + b2 % 16 * 4 / 4 = b2 := by omega
    rw [g1, g2]
  | b1 :: b2 :: b3 :: rest, h => by
    have hb1 : b1 < 256 := h b1 (by simp)
    have hb2 : b2 < 256 := h b2 (by simp)
    have hb3 : b3 < 256 := h b3 (by simp)
    have ih := decodeBase64_encodeBase64 rest (fun b hb => h b (by simp [hb]))
    have h1 : b1 / 4 < 64 := by omega
    have h2 : b1 % 4 * 16 + b2 / 16 < 64 := by omega
    have h3 : b2 % 16 * 4 + b3 / 64 < 64 := by omega
    have h4 : b3 % 64 < 64 := by omega
    show decodeBase64 (sextetToChar (b1 / 4) :: sextetToChar (b1 % 4 * 16 + b2 / 16) ::
        sextetToChar (b2 % 16 * 4 + b3 / 64) :: sextetToChar (b3 % 64) ::
        encodeBase64 rest) = b1 :: b2 :: b3 :: rest
    simp only [decodeBase64]
    rw [if_neg (fun hcon => sextetToChar_ne_pad _ h3 hcon.1)]
    rw [if_neg (fun hcon => sextetToChar_ne_pad _ h4 hcon.1)]
    rw [charToSextet_sextetToChar _ h1, charToSextet_sextetToChar _ h2,
      charToSextet_sextetToChar _ h3, charToSextet_sextetToChar _ h4]
    rw [ih]
    have g1 : b1 / 4 * 4 + (b1 % 4 * 16 + b2 / 16) / 16 = b1 := by omega
    have g2 : (b1 % 4 * 16 + b2 / 16) % 16 * 16 + (b2 % 16 * 4 + b3 / 64) / 4 = b2 := by
      omega
    have g3 : (b2 % 16 * 4 + b3 / 64) % 4 * 64 + b3 % 64 = b3 := by omega
    rw [g1, g2, g3]

/-- Helper: data of an appended string is the appended data. -/
theorem stringDataAppend (s t : String) : (s ++ t).data = s.data ++ t.data := by
  obtain ⟨ls⟩ := s
  obtain ⟨lt⟩ := t
  rfl

/-- Helper: data of a string built from a character list is that list. -/
theorem stringDataMk (l : List Char) : (String.mk l).data = l := rfl

/-- Helper: dropping through the first comma of a comma-free prefix followed
by a comma reaches exactly the tail. -/
theorem dropThroughComma_append (l1 l2 : List Char) (h : (',' : Char) ∉ l1) :
    dropThroughComma (l1 ++ (',' : Char) :: l2) = l2 := by
  induction l1 with
  | nil => simp [dropThroughComma]
  | cons c cs ih =>
    have hc : ¬(c = (',' : Char)) := fun hh => h (by simp [hh])
    simp only [List.cons_append, dropThroughComma, hc, if_false]
    exact ih (fun hm => h (List.mem_cons_of_mem _ hm))

/-- Claim C5: for every file whose bytes are in range and whose mime type
contains no comma (true of every real mime type), encoding with
`fileToBase64` and decoding with `base64ToFile` yields a file whose bytes
equal the original file's bytes. -/
theorem fileToBase64_base64ToFile_roundtrip (file : JsFile)
    (filename mimeType : String)
    (hbytes : ∀ b ∈ file.bytes, b < 256)
    (hmime : (',' : Char) ∉ file.type.data) :
    (base64ToFile (fileToBase64 file) filename mimeType).bytes = file.bytes := by
  show decodeBase64 (String.mk (dropThroughComma
      ((("data:") ++ file.type ++ (";base64,") ++
        String.mk (encodeBase64 file.bytes)).data))).data = file.bytes
  rw [stringDataMk]
  rw [stringDataAppend, stringDataAppend, stringDataAppend, stringDataMk]
  rw [List.append_assoc, List.append_assoc]
  rw [show (String.data (";base64,")) ++ encodeBase64 file.bytes =
      (String.data (";base64")) ++ ((',' : Char) :: encodeBase64 file.bytes) from rfl]
  rw [← List.append_assoc, ← List.append_assoc]
  rw [dropThroughComma_append _ _ ?nocomma]
  case nocomma =>
    intro hmem
    rcases List.mem_append.mp hmem with hm | hm
    · rcases List.mem_append.mp hm with hm2 | hm2
      · exact absurd hm2 (by decide)
      · exact hmime hm2
    · exact absurd hm (by decide)
  exact decodeBase64_encodeBase64 file.bytes hbytes

/-- Witness for C5 at a concrete three-byte file. -/
theorem fileToBase64_base64ToFile_roundtrip_witness :
    (base64ToFile (fileToBase64 ⟨"image/png", [72, 105, 33]⟩)
        ("decoded.png") ("image/png")).bytes = [72, 105, 33] :=
  fileToBase64_base64ToFile_roundtrip ⟨"image/png", [72, 105, 33]⟩
    ("decoded.png") ("image/png") (by decide) (by decide)
